import Mathlib

/-!
Shallow embedding of the core of the Browser-Use web front-end repository
(`flexible_browser_use.py`, `browser_use_ui.py`, `browser_use_ui_fixed.py`),
with theorems checking the natural-language specification against it.

Conventions of the embedding:
* Process environment variables are fields of the `Env` structure; a value of
  `none` models an unset variable, `some ""` a variable set to the empty
  string.  Python truthiness of `os.getenv` results is `isTruthy`.
* Python `str.strip()` is modelled by `pyStrip`, which removes leading and
  trailing whitespace characters.
* Fallible Python code is modelled with `Except PyExc`, where `PyExc`
  distinguishes the exception classes the source handles separately
  (`asyncio.TimeoutError`, `ValueError`, any other `Exception`).
* The awaited external automation agent (`run_task_with_llm` / `Agent.run`)
  is opaque, possibly-slow and possibly-failing; a call to it is modelled by
  `AgentCall`: a running duration plus an outcome (a result or a raised
  exception).  `asyncio.wait_for` is `waitFor`.
-/

namespace BrowserUse

open List

/-- Model of Python `str.strip()`: removes leading and trailing whitespace
characters.  Defined on the character list by structural recursion so that
it evaluates inside the kernel on concrete strings. -/
def pyStrip (s : String) : String :=
  ⟨((s.data.dropWhile Char.isWhitespace).reverse.dropWhile Char.isWhitespace).reverse⟩

/-- Process environment as read by the modules: the four credential
variables, the four model-selection variables and the two OpenRouter site
variables.  `none` models an unset variable. -/
structure Env where
  openaiApiKey : Option String := none
  anthropicApiKey : Option String := none
  googleApiKey : Option String := none
  openrouterApiKey : Option String := none
  openaiModel : Option String := none
  anthropicModel : Option String := none
  googleModel : Option String := none
  openrouterModel : Option String := none
  openrouterSiteUrl : Option String := none
  openrouterSiteName : Option String := none
deriving DecidableEq

/-- Python truthiness of an `os.getenv` result: `None` and `""` are falsy. -/
def isTruthy : Option String → Bool
  | none => false
  | some s => s ≠ ""

/-- Python `a or b` where `a` is an optional string (e.g. an optional
`model_name` argument) and `b` a string: yields `b` when `a` is falsy. -/
def pyOr (a : Option String) (b : String) : String :=
  match a with
  | none => b
  | some s => if s = "" then b else s

/-- The reserved placeholder strings rejected by `validate_api_key`
(`browser_use_ui_fixed.py`, line 139). -/
def apiKeyPlaceholders : List String :=
  ["your_api_key_here", "your_openai_api_key_here", "your_anthropic_api_key_here"]

/-- Embedding of `validate_api_key` (`browser_use_ui_fixed.py`, lines 135-143):
rejects falsy or whitespace-only values, the placeholder constants, and values
whose stripped form is shorter than 10 characters. -/
def validate_api_key (keyValue : String) : Bool :=
  if keyValue = "" ∨ pyStrip keyValue = "" then false
  else if keyValue ∈ apiKeyPlaceholders then false
  else if (pyStrip keyValue).length < 10 then false
  else true

/-- The fixed provider enumeration order used throughout the sources. -/
def providerOrder : List String := ["openai", "anthropic", "google", "openrouter"]

/-- Embedding of `get_available_providers` (`flexible_browser_use.py`, lines
85-101): appends each provider, in the fixed order, when its credential
variable is truthy and (for `anthropic`, `google`, `openrouter`) differs from
the provider-specific placeholder.  The sequential `append`s are modelled by
list concatenation. -/
def get_available_providers (env : Env) : List String :=
  (if isTruthy env.openaiApiKey then ["openai"] else []) ++
  (if isTruthy env.anthropicApiKey &&
      (env.anthropicApiKey != some "your_anthropic_api_key_here") then
    ["anthropic"] else []) ++
  (if isTruthy env.googleApiKey &&
      (env.googleApiKey != some "your_google_api_key_here") then
    ["google"] else []) ++
  (if isTruthy env.openrouterApiKey &&
      (env.openrouterApiKey != some "your_openrouter_api_key_here") then
    ["openrouter"] else [])

/-- Embedding of `get_model_options` of `browser_use_ui_fixed.py` (lines
221-255): the hardcoded model table of the fixed UI, `[]` for an unknown
provider (Python `dict.get(provider, [])`). -/
def get_model_options_fixed (provider : String) : List String :=
  if provider = "openai" then
    ["gpt-4o", "gpt-4o-mini", "gpt-4-turbo", "gpt-4", "gpt-3.5-turbo"]
  else if provider = "anthropic" then
    ["claude-3-5-sonnet-20240620", "claude-3-5-haiku-20241022",
     "claude-3-opus-20240229", "claude-3-sonnet-20240229", "claude-3-haiku-20240307"]
  else if provider = "google" then
    ["gemini-1.5-pro", "gemini-1.5-flash", "gemini-pro", "gemini-pro-vision"]
  else if provider = "openrouter" then
    ["openai/gpt-4o", "openai/gpt-4o-mini", "anthropic/claude-3-5-sonnet",
     "anthropic/claude-3-5-haiku", "google/gemini-pro",
     "meta-llama/llama-3.1-405b", "mistralai/mistral-large", "cohere/command-r-plus"]
  else []

/-- Embedding of `get_model_options` of `browser_use_ui.py` (lines 151-160):
the hardcoded model table of the original UI, `[]` for an unknown provider. -/
def get_model_options_ui (provider : String) : List String :=
  if provider = "openai" then
    ["gpt-4o", "gpt-4o-mini", "gpt-4-turbo", "gpt-3.5-turbo"]
  else if provider = "anthropic" then
    ["claude-3-5-sonnet-20240620", "claude-3-5-haiku-20241022", "claude-3-opus-20240229"]
  else if provider = "google" then
    ["gemini-1.5-pro", "gemini-1.5-flash", "gemini-pro"]
  else if provider = "openrouter" then
    ["openai/gpt-4o", "anthropic/claude-3-5-sonnet", "google/gemini-pro",
     "meta-llama/llama-3.1-405b", "mistralai/mistral-large", "cohere/command-r-plus"]
  else []

/-- Embedding of the `model_suggestions` mapping of
`interactive_provider_selection` (`flexible_browser_use.py`, lines 155-163),
`[]` for an unknown provider (`model_suggestions.get(provider, [])`). -/
def model_suggestions (provider : String) : List String :=
  if provider = "openai" then
    ["gpt-4o", "gpt-4o-mini", "gpt-4-turbo", "gpt-3.5-turbo"]
  else if provider = "anthropic" then
    ["claude-3-5-sonnet-20240620", "claude-3-5-haiku-20241022", "claude-3-opus-20240229"]
  else if provider = "google" then
    ["gemini-1.5-pro", "gemini-1.5-flash", "gemini-pro"]
  else if provider = "openrouter" then
    ["openai/gpt-4o", "anthropic/claude-3-5-sonnet", "google/gemini-pro",
     "meta-llama/llama-3.1-405b"]
  else []

/-- Exception classes the sources treat separately: `asyncio.TimeoutError`,
`ValueError` (with its message) and any other `Exception` (with its message). -/
inductive PyExc where
  | timeoutError
  | valueError (msg : String)
  | otherError (msg : String)
deriving DecidableEq

/-- An LLM client handle as built by the four constructor functions of
`flexible_browser_use.py`.  The temperature is `0.0` for every provider,
modelled as the integer `0`.  Fields not set by a constructor keep their
defaults. -/
structure LLM where
  clientClass : String
  model : String
  apiKey : String
  temperature : Int := 0
  timeoutSecs : Option Nat := none
  baseUrl : Option String := none
  defaultHeaders : List (String × String) := []
deriving DecidableEq

/-- Embedding of `create_openai_llm` (`flexible_browser_use.py`, lines 19-30):
raises `ValueError` when the key is falsy, otherwise builds a `ChatOpenAI`
handle with the model resolved as argument, then `OPENAI_MODEL`, then
`"gpt-4o"`. -/
def create_openai_llm (env : Env) (modelName : Option String) : Except PyExc LLM :=
  if isTruthy env.openaiApiKey = false then
    Except.error (PyExc.valueError "OPENAI_API_KEY not found in environment variables")
  else
    Except.ok { clientClass := "ChatOpenAI",
                model := pyOr modelName (env.openaiModel.getD "gpt-4o"),
                apiKey := env.openaiApiKey.getD "" }

/-- Embedding of `create_anthropic_llm` (`flexible_browser_use.py`, lines
32-44): raises `ValueError` when the key is falsy or equal to the anthropic
placeholder, otherwise builds a `ChatAnthropic` handle with `timeout=60`. -/
def create_anthropic_llm (env : Env) (modelName : Option String) : Except PyExc LLM :=
  if isTruthy env.anthropicApiKey = false ∨
      env.anthropicApiKey = some "your_anthropic_api_key_here" then
    Except.error (PyExc.valueError
      "ANTHROPIC_API_KEY not found or not configured in environment variables")
  else
    Except.ok { clientClass := "ChatAnthropic",
                model := pyOr modelName (env.anthropicModel.getD "claude-3-5-sonnet-20240620"),
                apiKey := env.anthropicApiKey.getD "",
                timeoutSecs := some 60 }

/-- Embedding of `create_google_llm` (`flexible_browser_use.py`, lines 46-57). -/
def create_google_llm (env : Env) (modelName : Option String) : Except PyExc LLM :=
  if isTruthy env.googleApiKey = false ∨
      env.googleApiKey = some "your_google_api_key_here" then
    Except.error (PyExc.valueError
      "GOOGLE_API_KEY not found or not configured in environment variables")
  else
    Except.ok { clientClass := "ChatGoogleGenerativeAI",
                model := pyOr modelName (env.googleModel.getD "gemini-1.5-pro"),
                apiKey := env.googleApiKey.getD "" }

/-- Embedding of `create_openrouter_llm` (`flexible_browser_use.py`, lines
59-83): same `ChatOpenAI` client shape as `openai` but with the OpenRouter
base URL, and optional extra headers, each attached independently when the
corresponding site variable is truthy (`HTTP-Referer` from
`OPENROUTER_SITE_URL`, `X-Title` from `OPENROUTER_SITE_NAME`, in that
insertion order). -/
def create_openrouter_llm (env : Env) (modelName : Option String) : Except PyExc LLM :=
  if isTruthy env.openrouterApiKey = false ∨
      env.openrouterApiKey = some "your_openrouter_api_key_here" then
    Except.error (PyExc.valueError
      "OPENROUTER_API_KEY not found or not configured in environment variables")
  else
    Except.ok { clientClass := "ChatOpenAI",
                model := pyOr modelName (env.openrouterModel.getD "openai/gpt-4o"),
                apiKey := env.openrouterApiKey.getD "",
                baseUrl := some "https://openrouter.ai/api/v1",
                defaultHeaders :=
                  (if isTruthy env.openrouterSiteUrl then
                    [("HTTP-Referer", env.openrouterSiteUrl.getD "")] else []) ++
                  (if isTruthy env.openrouterSiteName then
                    [("X-Title", env.openrouterSiteName.getD "")] else []) }

/-- The provider dispatch of `run_browser_task` (`browser_use_ui_fixed.py`,
lines 268-278): one constructor per recognized provider, and a raised
`ValueError` for any other provider string.  The subsequent `if not llm`
check of the source is unreachable (each constructor either raises or
returns an object) and is not modelled. -/
def create_llm_for_provider (env : Env) (provider : String) (modelName : Option String) :
    Except PyExc LLM :=
  if provider = "openai" then create_openai_llm env modelName
  else if provider = "anthropic" then create_anthropic_llm env modelName
  else if provider = "google" then create_google_llm env modelName
  else if provider = "openrouter" then create_openrouter_llm env modelName
  else Except.error (PyExc.valueError ("Unsupported provider: " ++ provider))

deriving instance DecidableEq for Except

/-- One call to the external automation agent (`run_task_with_llm`, i.e.
`Agent.run`): how long it runs and what it produces — a result string or a
raised exception. -/
structure AgentCall where
  duration : Nat
  outcome : Except PyExc String
deriving DecidableEq

/-- Model of `asyncio.wait_for(..., timeout=bound)`: if the awaited call
takes longer than the bound, `asyncio.TimeoutError` is raised; otherwise the
call's own outcome (result or exception) propagates. -/
def waitFor (bound : Nat) (call : AgentCall) : Except PyExc String :=
  if bound < call.duration then Except.error PyExc.timeoutError
  else call.outcome

/-- The four return sites of `run_browser_task` in `browser_use_ui_fixed.py`:
the success return and the three `except` clauses (timeout, `ValueError`,
any other `Exception`). -/
inductive DispatchResult where
  | ok (result : String)
  | errTimeout
  | errConfig (msg : String)
  | errExec (msg : String)
deriving DecidableEq

/-- The `except` ladder of `run_browser_task` (`browser_use_ui_fixed.py`,
lines 291-299): `asyncio.TimeoutError` first, then `ValueError`, then any
other `Exception`. -/
def excToResult : PyExc → DispatchResult
  | PyExc.timeoutError => DispatchResult.errTimeout
  | PyExc.valueError m => DispatchResult.errConfig m
  | PyExc.otherError m => DispatchResult.errExec m

/-- The `(result, error)` pair actually returned to the caller, with the
literal message strings of the source: `errTimeout` renders as
`"Task timed out after 5 minutes. Please try a simpler task."`, `errConfig m`
as `"Configuration error: " ++ m`, `errExec m` as `"Execution error: " ++ m`. -/
def resultToPair : DispatchResult → Option String × Option String
  | DispatchResult.ok r => (some r, none)
  | DispatchResult.errTimeout =>
      (none, some "Task timed out after 5 minutes. Please try a simpler task.")
  | DispatchResult.errConfig m => (none, some ("Configuration error: " ++ m))
  | DispatchResult.errExec m => (none, some ("Execution error: " ++ m))

/-- Embedding of `run_browser_task` (`browser_use_ui_fixed.py`, lines
257-299).  Returns the dispatch result together with the number of times the
external agent was invoked (the single `await` of `run_task_with_llm` inside
`asyncio.wait_for`).  Input validation raises `ValueError` (caught by the
`except ValueError` clause) before the agent is ever invoked. -/
def run_browser_task (env : Env) (task provider : String) (modelName : Option String)
    (agent : AgentCall) : DispatchResult × Nat :=
  if task = "" ∨ pyStrip task = "" then
    (DispatchResult.errConfig "Task cannot be empty", 0)
  else if provider = "" then
    (DispatchResult.errConfig "Provider must be specified", 0)
  else
    match create_llm_for_provider env provider modelName with
    | Except.error e => (excToResult e, 0)
    | Except.ok _ =>
      match waitFor 300 agent with
      | Except.ok r => (DispatchResult.ok r, 1)
      | Except.error e => (excToResult e, 1)

/-- The four credential arguments of `save_api_keys` (one per provider). -/
structure ApiKeys where
  openaiKey : String
  anthropicKey : String
  googleKey : String
  openrouterKey : String
deriving DecidableEq

/-- One line of the settings file.  The file is modelled at line granularity
(one constructor per line of the f-string template of `save_api_keys`); this
is faithful as long as no written value itself contains a newline. -/
inductive EnvLine where
  | comment (text : String)
  | blank
  | pair (key value : String)
deriving DecidableEq

/-- The `env_content` template of `save_api_keys`
(`browser_use_ui_fixed.py`, lines 160-183), line by line.  Credential values
are written stripped (`key.strip() if key else ''`, which equals
`pyStrip` on strings); the provider line takes the session's provider;
the model lines re-read the current environment with the built-in defaults;
the remaining lines are fixed text. -/
def envFileContent (keys : ApiKeys) (provider : String) (env : Env) : List EnvLine :=
  [EnvLine.comment "# === API KEYS ===",
   EnvLine.pair "OPENAI_API_KEY" (pyStrip keys.openaiKey),
   EnvLine.pair "ANTHROPIC_API_KEY" (pyStrip keys.anthropicKey),
   EnvLine.pair "GOOGLE_API_KEY" (pyStrip keys.googleKey),
   EnvLine.pair "OPENROUTER_API_KEY" (pyStrip keys.openrouterKey),
   EnvLine.blank,
   EnvLine.comment "# === PROVIDER SELECTION ===",
   EnvLine.pair "LLM_PROVIDER" provider,
   EnvLine.blank,
   EnvLine.comment "# === MODEL SELECTION ===",
   EnvLine.pair "OPENAI_MODEL" (env.openaiModel.getD "gpt-4o"),
   EnvLine.pair "ANTHROPIC_MODEL" (env.anthropicModel.getD "claude-3-5-sonnet-20240620"),
   EnvLine.pair "GOOGLE_MODEL" (env.googleModel.getD "gemini-1.5-pro"),
   EnvLine.pair "OPENROUTER_MODEL" (env.openrouterModel.getD "openai/gpt-4o"),
   EnvLine.blank,
   EnvLine.comment "# === BROWSER USE SETTINGS ===",
   EnvLine.pair "BROWSER_USE_LOGGING_LEVEL" "debug",
   EnvLine.pair "ANONYMIZED_TELEMETRY" "false",
   EnvLine.pair "INTERACTIVE_MODE" "false",
   EnvLine.blank,
   EnvLine.comment "# === OPENROUTER SPECIFIC ===",
   EnvLine.pair "OPENROUTER_SITE_URL" "https://your-site.com",
   EnvLine.pair "OPENROUTER_SITE_NAME" "Browser Use Automation"]

/-- The `any(valid_keys)` check of `save_api_keys`
(`browser_use_ui_fixed.py`, lines 149-156). -/
def anyValidKey (keys : ApiKeys) : Bool :=
  validate_api_key keys.openaiKey || validate_api_key keys.anthropicKey ||
  validate_api_key keys.googleKey || validate_api_key keys.openrouterKey

/-- Embedding of `save_api_keys` (`browser_use_ui_fixed.py`, lines 145-194):
when no credential passes `validate_api_key`, the function reports an error
and returns `False` without touching the file (`none` here); otherwise it
returns `True` after rewriting the whole file with the template content
(`some` the new file). -/
def save_api_keys (keys : ApiKeys) (provider : String) (env : Env) :
    Option (List EnvLine) :=
  if anyValidKey keys then some (envFileContent keys provider env) else none

/-- The on-disk settings file after a `save_api_keys` call: replaced on
success, untouched on failure (the source only opens `.env` for writing
inside the success branch). -/
def savedEnvFile (old : List EnvLine) (keys : ApiKeys) (provider : String)
    (env : Env) : List EnvLine :=
  match save_api_keys keys provider env with
  | some newFile => newFile
  | none => old

/-- Modelled from the spec: the Settings Store `load` direction is performed
by the external `dotenv` library, which is not part of the repository
sources.  Following the spec's description of the settings file (one
`KEY=VALUE` pair per line, comment and malformed lines ignored, never
fatal), a lookup returns the value of the first `pair` line carrying the
requested key, and `none` when no such line exists. -/
def fileLookup (file : List EnvLine) (key : String) : Option String :=
  match file with
  | [] => none
  | EnvLine.pair k v :: rest => if k = key then some v else fileLookup rest key
  | EnvLine.comment _ :: rest => fileLookup rest key
  | EnvLine.blank :: rest => fileLookup rest key

/-- Role tag of a transcript message. -/
inductive Role where
  | user
  | assistant
deriving DecidableEq

/-- One transcript entry: role, content and formatted timestamp. -/
structure ChatMessage where
  role : Role
  content : String
  timestamp : String
deriving DecidableEq

/-- The session-state fields of the fixed UI that the task-execution block
touches (`st.session_state` in `browser_use_ui_fixed.py`). -/
structure SessionState where
  chatHistory : List ChatMessage
  taskRunning : Bool
  lastError : Option String
  taskCount : Nat
deriving DecidableEq

/-- Outcome of `asyncio.run(run_browser_task(...))` as seen by `main`:
either the dispatcher's `(result, error)` pair is returned, or some
unexpected exception escapes `asyncio.run` itself (caught by the
`except Exception` clause of `main`). -/
inductive RunOutcome where
  | returns (r : DispatchResult)
  | raises (msg : String)
deriving DecidableEq

/-- Embedding of the task-execution block of `main`
(`browser_use_ui_fixed.py`, lines 516-571).  `startButton` is the Start
button state, `keyValid` the result of the re-validation
`validate_api_key(os.getenv(provider.upper() + "_API_KEY"))` (an
environment read abstracted as a Boolean), `ts1`/`ts2` the two formatted
timestamps.  When the guard fails nothing runs; when re-validation fails,
`st.stop()` ends the script run with the state untouched; otherwise the
user message is appended, the running flag is set, the dispatch outcome is
folded into the transcript, and the running flag is cleared. -/
def handle_task_execution (s : SessionState) (startButton : Bool)
    (taskInput : String) (keyValid : Bool) (outcome : RunOutcome)
    (ts1 ts2 : String) : SessionState :=
  if startButton = true ∧ taskInput ≠ "" ∧ pyStrip taskInput ≠ "" then
    if keyValid = false then s
    else
      let s1 : SessionState :=
        { s with
          chatHistory := s.chatHistory ++
            [{ role := Role.user, content := pyStrip taskInput, timestamp := ts1 }],
          taskRunning := true }
      let s2 : SessionState :=
        match outcome with
        | RunOutcome.returns r =>
          let pair := resultToPair r
          if isTruthy pair.2 then
            { s1 with
              chatHistory := s1.chatHistory ++
                [{ role := Role.assistant,
                   content := "❌ Error: " ++ pair.2.getD "", timestamp := ts2 }],
              lastError := pair.2 }
          else
            { s1 with
              chatHistory := s1.chatHistory ++
                [{ role := Role.assistant,
                   content := "✅ Task completed!\n\n" ++
                     (if isTruthy pair.1 then pair.1.getD ""
                      else "Task completed successfully!"),
                   timestamp := ts2 }],
              taskCount := s1.taskCount + 1,
              lastError := none }
        | RunOutcome.raises m =>
          { s1 with
            chatHistory := s1.chatHistory ++
              [{ role := Role.assistant,
                 content := "❌ Unexpected error: " ++ m, timestamp := ts2 }],
            lastError := some ("Unexpected error: " ++ m) }
      { s2 with taskRunning := false }
  else s

/-- A concrete environment with one configured OpenAI credential, used to
evaluate the dispatcher on concrete inputs. -/
def demoEnv : Env := { openaiApiKey := some "sk-abcdefghij" }

/-- The client handle `create_llm_for_provider demoEnv "openai" none`
builds. -/
def demoLLM : LLM :=
  { clientClass := "ChatOpenAI", model := "gpt-4o", apiKey := "sk-abcdefghij" }

/-- A concrete environment for the OpenRouter factory: configured credential
and site URL, but no site name. -/
def siteEnv : Env :=
  { openrouterApiKey := some "sk-or-abcdefghij",
    openrouterSiteUrl := some "https://example.com" }

/-- A concrete session state used to evaluate the task-execution block. -/
def demoSession : SessionState :=
  { chatHistory := [], taskRunning := false, lastError := none, taskCount := 0 }

/-- C4. The claim reads: `validate_api_key` returns false exactly when the
string is empty, shorter than the minimum length threshold (10), or equal
to a reserved placeholder.  Counterexample: a string of ten spaces is
non-empty, has length 10 (not below the threshold) and is no placeholder,
yet `validate_api_key` rejects it, because the length check runs on the
stripped string and whitespace-only strings are rejected outright. -/
theorem validate_api_key_claim_counterexample :
    validate_api_key "          " = false ∧
    "          " ≠ "" ∧
    ¬ (String.length "          " < 10) ∧
    "          " ∉ apiKeyPlaceholders := by decide

/-- C4 (amended): `validate_api_key` returns true exactly when the
whitespace-stripped credential has at least 10 characters and the credential
is none of the reserved placeholder constants; equivalently it returns false
exactly when the string is empty, whitespace-only, has stripped length below
10, or is a placeholder. -/
theorem validate_api_key_true_iff (k : String) :
    validate_api_key k = true ↔ 10 ≤ (pyStrip k).length ∧ k ∉ apiKeyPlaceholders := by
  unfold validate_api_key
  split_ifs with h1 h2 h3
  · constructor
    · intro h; simp at h
    · rintro ⟨hlen, -⟩
      rcases h1 with h | h
      · subst h; exact absurd hlen (by decide)
      · rw [h] at hlen; exact absurd hlen (by decide)
  · constructor
    · intro h; simp at h
    · rintro ⟨-, hnp⟩; exact hnp h2
  · constructor
    · intro h; simp at h
    · rintro ⟨hlen, -⟩; omega
  · exact ⟨fun _ => ⟨by omega, h2⟩, fun _ => rfl⟩

/-- C5. The claim reads: `get_available_providers` returns exactly the
providers whose credential passes the "configured" check of
`validate_api_key`.  Counterexample: a one-character OpenAI key fails that
check, yet the provider is listed — the source only tests truthiness (and,
for the other three providers, a placeholder), never length. -/
theorem available_providers_counterexample :
    get_available_providers { openaiApiKey := some "x" } = ["openai"] ∧
    validate_api_key "x" = false := by decide

/-- C5 (amended): `get_available_providers` lists, in the fixed enumeration
order, `openai` exactly when its key is set and non-empty, and each of
`anthropic`, `google`, `openrouter` exactly when its key is set, non-empty
and different from its provider-specific placeholder; the output is always
an order-preserving subsequence of the enumeration.  No minimum-length check
is applied. -/
theorem get_available_providers_spec (env : Env) :
    get_available_providers env <+ providerOrder ∧
    (("openai" ∈ get_available_providers env) ↔
      isTruthy env.openaiApiKey = true) ∧
    (("anthropic" ∈ get_available_providers env) ↔
      (isTruthy env.anthropicApiKey = true ∧
       env.anthropicApiKey ≠ some "your_anthropic_api_key_here")) ∧
    (("google" ∈ get_available_providers env) ↔
      (isTruthy env.googleApiKey = true ∧
       env.googleApiKey ≠ some "your_google_api_key_here")) ∧
    (("openrouter" ∈ get_available_providers env) ↔
      (isTruthy env.openrouterApiKey = true ∧
       env.openrouterApiKey ≠ some "your_openrouter_api_key_here")) := by
  unfold get_available_providers providerOrder
  cases h1 : isTruthy env.openaiApiKey <;>
    cases h2 : isTruthy env.anthropicApiKey &&
      (env.anthropicApiKey != some "your_anthropic_api_key_here") <;>
    cases h3 : isTruthy env.googleApiKey &&
      (env.googleApiKey != some "your_google_api_key_here") <;>
    cases h4 : isTruthy env.openrouterApiKey &&
      (env.openrouterApiKey != some "your_openrouter_api_key_here") <;>
    simp_all [Bool.and_eq_true, bne_iff_ne] <;> tauto

/-- C10. The claim reads: the three hardcoded model tables return equal
ordered lists for every provider.  Counterexample: for `openai` the fixed UI
lists five models while the original UI lists four. -/
theorem model_tables_counterexample :
    get_model_options_fixed "openai" ≠ get_model_options_ui "openai" := by decide

/-- C10 (amended): all three tables return the empty list for a provider
outside the fixed enumeration, and for every provider the flexible module's
suggestion list is an order-preserving subsequence of the original UI's
list, which in turn is an order-preserving subsequence of the fixed UI's
list — but the three lists are not equal. -/
theorem model_tables_refinement (provider : String) :
    (provider ∉ providerOrder →
      get_model_options_fixed provider = [] ∧
      get_model_options_ui provider = [] ∧
      model_suggestions provider = []) ∧
    model_suggestions provider <+ get_model_options_ui provider ∧
    get_model_options_ui provider <+ get_model_options_fixed provider := by
  by_cases h1 : provider = "openai"
  · subst h1; exact ⟨fun h => absurd (by decide) h, by decide, by decide⟩
  by_cases h2 : provider = "anthropic"
  · subst h2; exact ⟨fun h => absurd (by decide) h, by decide, by decide⟩
  by_cases h3 : provider = "google"
  · subst h3; exact ⟨fun h => absurd (by decide) h, by decide, by decide⟩
  by_cases h4 : provider = "openrouter"
  · subst h4; exact ⟨fun h => absurd (by decide) h, by decide, by decide⟩
  refine ⟨fun _ => ?_, ?_, ?_⟩ <;>
    simp [get_model_options_fixed, get_model_options_ui, model_suggestions,
      h1, h2, h3, h4]

/-- C10 witness: the refinement theorem applied at the unknown provider
`"grok"` and at `"openai"`. -/
theorem model_tables_refinement_witness :
    (get_model_options_fixed "grok" = [] ∧
     get_model_options_ui "grok" = [] ∧
     model_suggestions "grok" = []) ∧
    model_suggestions "openai" <+ get_model_options_ui "openai" :=
  ⟨(model_tables_refinement "grok").1 (by decide),
   (model_tables_refinement "openai").2.1⟩

/-- C1. The claim reads: every exception raised by the external agent other
than a timeout is returned as `Err(ExecutionError, message)`.
Counterexample: an agent-raised `ValueError` is caught by the dispatcher's
`except ValueError` clause and returned through the configuration-error
return site (message `"Configuration error: boom"`), not the
execution-error one. -/
theorem run_browser_task_valueError_counterexample :
    run_browser_task demoEnv "check the news" "openai" none
        { duration := 1, outcome := Except.error (PyExc.valueError "boom") } =
      (DispatchResult.errConfig "boom", 1) ∧
    resultToPair (DispatchResult.errConfig "boom") =
      (none, some "Configuration error: boom") ∧
    DispatchResult.errConfig "boom" ≠ DispatchResult.errExec "boom" := by decide

/-- C1 (amended): every exception raised during the bounded agent call is
caught and turned into an ordinary return value — the dispatcher never
propagates a fault — classified by the except ladder `excToResult`: a
timeout becomes the timeout error, a `ValueError` becomes
`Err(ConfigurationError, message)`, and every other exception becomes
`Err(ExecutionError, message)`; the agent is invoked exactly once. -/
theorem run_browser_task_catches_all (env : Env) (task provider : String)
    (modelName : Option String) (agent : AgentCall) (llm : LLM) (e : PyExc)
    (htask : ¬(task = "" ∨ pyStrip task = ""))
    (hprov : provider ≠ "")
    (hllm : create_llm_for_provider env provider modelName = Except.ok llm)
    (hexc : waitFor 300 agent = Except.error e) :
    run_browser_task env task provider modelName agent = (excToResult e, 1) := by
  simp only [run_browser_task, if_neg htask, if_neg hprov, hllm, hexc]

/-- C1 witness: the containment theorem applied at a concrete input where
the agent overruns the bound. -/
theorem run_browser_task_catches_all_witness :
    run_browser_task demoEnv "check the news" "openai" none
        { duration := 301, outcome := Except.ok "done" } =
      (excToResult PyExc.timeoutError, 1) :=
  run_browser_task_catches_all demoEnv "check the news" "openai" none
    { duration := 301, outcome := Except.ok "done" } demoLLM PyExc.timeoutError
    (by decide) (by decide) (by decide) (by decide)

/-- C2: the agent call is bounded by the fixed timeout 300; when the agent
runs longer, the dispatcher returns the timeout error whose rendered message
is `"Task timed out after 5 minutes. Please try a simpler task."`, and the
agent was invoked exactly once — no retry is performed, the timed-out task
is terminal for this invocation. -/
theorem run_browser_task_timeout (env : Env) (task provider : String)
    (modelName : Option String) (agent : AgentCall) (llm : LLM)
    (htask : ¬(task = "" ∨ pyStrip task = ""))
    (hprov : provider ≠ "")
    (hllm : create_llm_for_provider env provider modelName = Except.ok llm)
    (hslow : 300 < agent.duration) :
    run_browser_task env task provider modelName agent =
      (DispatchResult.errTimeout, 1) ∧
    resultToPair DispatchResult.errTimeout =
      (none, some "Task timed out after 5 minutes. Please try a simpler task.") := by
  refine ⟨?_, rfl⟩
  have hw : waitFor 300 agent = Except.error PyExc.timeoutError := by
    unfold waitFor; rw [if_pos hslow]
  simp only [run_browser_task, if_neg htask, if_neg hprov, hllm, hw, excToResult]

/-- C2 witness: the timeout theorem applied at a concrete slow agent. -/
theorem run_browser_task_timeout_witness :
    run_browser_task demoEnv "check the news" "openai" none
        { duration := 500, outcome := Except.ok "done" } =
      (DispatchResult.errTimeout, 1) ∧
    resultToPair DispatchResult.errTimeout =
      (none, some "Task timed out after 5 minutes. Please try a simpler task.") :=
  run_browser_task_timeout demoEnv "check the news" "openai" none
    { duration := 500, outcome := Except.ok "done" } demoLLM
    (by decide) (by decide) (by decide) (by decide)

/-- C3: an empty or whitespace-only task fails input validation (the
dispatcher's `raise ValueError("Task cannot be empty")`, surfaced as the
configuration-error return with exactly that message — the code-level
rendering of `InvalidTaskError`) and the external agent is invoked zero
times, so no network interaction happens. -/
theorem run_browser_task_empty_task (env : Env) (task provider : String)
    (modelName : Option String) (agent : AgentCall)
    (htask : pyStrip task = "") :
    run_browser_task env task provider modelName agent =
      (DispatchResult.errConfig "Task cannot be empty", 0) := by
  unfold run_browser_task
  rw [if_pos (Or.inr htask)]

/-- C3 witness: the validation theorem applied at a whitespace-only task,
with an agent double that would return successfully if it were ever
invoked. -/
theorem run_browser_task_empty_task_witness :
    run_browser_task demoEnv "   " "openai" none
        { duration := 1, outcome := Except.ok "done" } =
      (DispatchResult.errConfig "Task cannot be empty", 0) :=
  run_browser_task_empty_task demoEnv "   " "openai" none
    { duration := 1, outcome := Except.ok "done" } (by decide)

/-- C6. The claim reads: for every valid credential set,
`save` followed by `load` reproduces the set exactly.  Counterexample: the
credential `" sk-abcdefghij "` passes the configured check (its stripped
length is 13), but `save_api_keys` writes the stripped value, so the loaded
credential differs from the saved one. -/
theorem save_load_round_trip_counterexample :
    validate_api_key " sk-abcdefghij " = true ∧
    save_api_keys ⟨" sk-abcdefghij ", "", "", ""⟩ "openai" {} =
      some (envFileContent ⟨" sk-abcdefghij ", "", "", ""⟩ "openai" {}) ∧
    fileLookup (envFileContent ⟨" sk-abcdefghij ", "", "", ""⟩ "openai" {})
        "OPENAI_API_KEY" = some "sk-abcdefghij" ∧
    (" sk-abcdefghij " : String) ≠ "sk-abcdefghij" := by decide

/-- C6 (amended): for every credential set with at least one configured
credential, `save_api_keys` succeeds and rewrites the file; looking the
credential keys up in the written file returns each saved credential with
its surrounding whitespace stripped, and the provider key returns the saved
provider; consequently a loaded credential equals the saved one exactly
when that credential carries no surrounding whitespace. -/
theorem save_load_round_trip (keys : ApiKeys) (provider : String) (env : Env)
    (hvalid : anyValidKey keys = true) :
    save_api_keys keys provider env = some (envFileContent keys provider env) ∧
    fileLookup (envFileContent keys provider env) "OPENAI_API_KEY" =
      some (pyStrip keys.openaiKey) ∧
    fileLookup (envFileContent keys provider env) "ANTHROPIC_API_KEY" =
      some (pyStrip keys.anthropicKey) ∧
    fileLookup (envFileContent keys provider env) "GOOGLE_API_KEY" =
      some (pyStrip keys.googleKey) ∧
    fileLookup (envFileContent keys provider env) "OPENROUTER_API_KEY" =
      some (pyStrip keys.openrouterKey) ∧
    fileLookup (envFileContent keys provider env) "LLM_PROVIDER" =
      some provider ∧
    (fileLookup (envFileContent keys provider env) "OPENAI_API_KEY" =
        some keys.openaiKey ↔ pyStrip keys.openaiKey = keys.openaiKey) ∧
    (fileLookup (envFileContent keys provider env) "ANTHROPIC_API_KEY" =
        some keys.anthropicKey ↔ pyStrip keys.anthropicKey = keys.anthropicKey) ∧
    (fileLookup (envFileContent keys provider env) "GOOGLE_API_KEY" =
        some keys.googleKey ↔ pyStrip keys.googleKey = keys.googleKey) ∧
    (fileLookup (envFileContent keys provider env) "OPENROUTER_API_KEY" =
        some keys.openrouterKey ↔ pyStrip keys.openrouterKey = keys.openrouterKey) := by
  refine ⟨by simp [save_api_keys, hvalid], ?_, ?_, ?_, ?_, ?_, ?_, ?_, ?_, ?_⟩ <;>
    simp [envFileContent, fileLookup]

/-- C6 witness: the round-trip theorem applied at a concrete credential set
with one configured OpenAI key. -/
theorem save_load_round_trip_witness :
    save_api_keys ⟨"sk-abcdefghij", "", "", ""⟩ "openai" {} =
      some (envFileContent ⟨"sk-abcdefghij", "", "", ""⟩ "openai" {}) ∧
    fileLookup (envFileContent ⟨"sk-abcdefghij", "", "", ""⟩ "openai" {})
        "OPENAI_API_KEY" = some (pyStrip "sk-abcdefghij") ∧
    fileLookup (envFileContent ⟨"sk-abcdefghij", "", "", ""⟩ "openai" {})
        "ANTHROPIC_API_KEY" = some (pyStrip "") ∧
    fileLookup (envFileContent ⟨"sk-abcdefghij", "", "", ""⟩ "openai" {})
        "GOOGLE_API_KEY" = some (pyStrip "") ∧
    fileLookup (envFileContent ⟨"sk-abcdefghij", "", "", ""⟩ "openai" {})
        "OPENROUTER_API_KEY" = some (pyStrip "") ∧
    fileLookup (envFileContent ⟨"sk-abcdefghij", "", "", ""⟩ "openai" {})
        "LLM_PROVIDER" = some "openai" ∧
    (fileLookup (envFileContent ⟨"sk-abcdefghij", "", "", ""⟩ "openai" {})
        "OPENAI_API_KEY" = some "sk-abcdefghij" ↔
      pyStrip "sk-abcdefghij" = "sk-abcdefghij") ∧
    (fileLookup (envFileContent ⟨"sk-abcdefghij", "", "", ""⟩ "openai" {})
        "ANTHROPIC_API_KEY" = some "" ↔ pyStrip "" = "") ∧
    (fileLookup (envFileContent ⟨"sk-abcdefghij", "", "", ""⟩ "openai" {})
        "GOOGLE_API_KEY" = some "" ↔ pyStrip "" = "") ∧
    (fileLookup (envFileContent ⟨"sk-abcdefghij", "", "", ""⟩ "openai" {})
        "OPENROUTER_API_KEY" = some "" ↔ pyStrip "" = "") :=
  save_load_round_trip ⟨"sk-abcdefghij", "", "", ""⟩ "openai" {} (by decide)

/-- C7: when no credential of the set passes the configured check,
`save_api_keys` reports failure (`none`, the source's `return False`) and
the on-disk settings file is left unchanged — the source only opens the
file for writing in the success branch. -/
theorem save_api_keys_no_valid_key (keys : ApiKeys) (provider : String)
    (env : Env) (old : List EnvLine)
    (h : anyValidKey keys = false) :
    save_api_keys keys provider env = none ∧
    savedEnvFile old keys provider env = old := by
  refine ⟨by simp [save_api_keys, h], ?_⟩
  simp [savedEnvFile, save_api_keys, h]

/-- C7 witness: the no-write theorem applied at an all-placeholder
credential set and a concrete prior file. -/
theorem save_api_keys_no_valid_key_witness :
    save_api_keys ⟨"", "your_api_key_here", "short", "   "⟩ "openai" {} = none ∧
    savedEnvFile [EnvLine.pair "OPENAI_API_KEY" "old-value-123"]
        ⟨"", "your_api_key_here", "short", "   "⟩ "openai" {} =
      [EnvLine.pair "OPENAI_API_KEY" "old-value-123"] :=
  save_api_keys_no_valid_key ⟨"", "your_api_key_here", "short", "   "⟩ "openai" {}
    [EnvLine.pair "OPENAI_API_KEY" "old-value-123"] (by decide)

/-- C8. The claim reads: the extra OpenRouter headers are attached only if
both the site identifier and the site name are present.  Counterexample:
with a configured key, a site URL and no site name, the constructed client
still carries the `HTTP-Referer` header derived from the site URL. -/
theorem openrouter_headers_counterexample :
    siteEnv.openrouterSiteName = none ∧
    create_openrouter_llm siteEnv none =
      Except.ok { clientClass := "ChatOpenAI",
                  model := "openai/gpt-4o",
                  apiKey := "sk-or-abcdefghij",
                  baseUrl := some "https://openrouter.ai/api/v1",
                  defaultHeaders := [("HTTP-Referer", "https://example.com")] } ∧
    [(("HTTP-Referer" : String), ("https://example.com" : String))] ≠ [] := by
  decide

/-- C8 (amended): each of the two optional headers is attached
independently — `HTTP-Referer` carrying the site URL exactly when
`OPENROUTER_SITE_URL` is present (set and non-empty), and `X-Title`
carrying the site name exactly when `OPENROUTER_SITE_NAME` is present —
regardless of whether the other value is set. -/
theorem openrouter_headers_independent (env : Env) (modelName : Option String)
    (llm : LLM)
    (h : create_openrouter_llm env modelName = Except.ok llm) :
    ((("HTTP-Referer", env.openrouterSiteUrl.getD "") ∈ llm.defaultHeaders) ↔
      isTruthy env.openrouterSiteUrl = true) ∧
    ((("X-Title", env.openrouterSiteName.getD "") ∈ llm.defaultHeaders) ↔
      isTruthy env.openrouterSiteName = true) := by
  unfold create_openrouter_llm at h
  by_cases hk : isTruthy env.openrouterApiKey = false ∨
      env.openrouterApiKey = some "your_openrouter_api_key_here"
  · rw [if_pos hk] at h; cases h
  · rw [if_neg hk, Except.ok.injEq] at h
    subst h
    cases hu : isTruthy env.openrouterSiteUrl <;>
      cases hn : isTruthy env.openrouterSiteName <;>
        simp [hu, hn]

/-- C8 witness: the header-independence theorem applied at the concrete
environment that has a site URL and no site name. -/
theorem openrouter_headers_independent_witness :
    ((("HTTP-Referer", siteEnv.openrouterSiteUrl.getD "") ∈
        LLM.defaultHeaders { clientClass := "ChatOpenAI",
                             model := "openai/gpt-4o",
                             apiKey := "sk-or-abcdefghij",
                             baseUrl := some "https://openrouter.ai/api/v1",
                             defaultHeaders :=
                               [("HTTP-Referer", "https://example.com")] }) ↔
      isTruthy siteEnv.openrouterSiteUrl = true) ∧
    ((("X-Title", siteEnv.openrouterSiteName.getD "") ∈
        LLM.defaultHeaders { clientClass := "ChatOpenAI",
                             model := "openai/gpt-4o",
                             apiKey := "sk-or-abcdefghij",
                             baseUrl := some "https://openrouter.ai/api/v1",
                             defaultHeaders :=
                               [("HTTP-Referer", "https://example.com")] }) ↔
      isTruthy siteEnv.openrouterSiteName = true) :=
  openrouter_headers_independent siteEnv none
    { clientClass := "ChatOpenAI",
      model := "openai/gpt-4o",
      apiKey := "sk-or-abcdefghij",
      baseUrl := some "https://openrouter.ai/api/v1",
      defaultHeaders := [("HTTP-Referer", "https://example.com")] }
    (by decide)

/-- C9: whenever the task-execution block of `main` actually dispatches a
task (Start pressed, non-blank task, valid key), the session's
`task_running` flag is false again in the resulting state, for every
possible dispatch outcome — success, timeout result, error result, or an
unexpected exception. -/
theorem task_running_cleared (s : SessionState) (taskInput : String)
    (outcome : RunOutcome) (ts1 ts2 : String)
    (hne : taskInput ≠ "") (htrim : pyStrip taskInput ≠ "") :
    (handle_task_execution s true taskInput true outcome ts1 ts2).taskRunning =
      false := by
  unfold handle_task_execution
  rw [if_pos ⟨rfl, hne, htrim⟩, if_neg (by simp)]

/-- C9 witness: the flag-clearing theorem applied at a concrete session and
a timed-out dispatch outcome. -/
theorem task_running_cleared_witness :
    (handle_task_execution demoSession true "check the news" true
        (RunOutcome.returns DispatchResult.errTimeout) "10:00" "10:05").taskRunning =
      false :=
  task_running_cleared demoSession "check the news"
    (RunOutcome.returns DispatchResult.errTimeout) "10:00" "10:05"
    (by decide) (by decide)

end BrowserUse
